import Mathlib

/-!
Verification of the shared-authentication-state cache of the ordisse2e-v2
test suite. The embedded code is the function globalSetup from
tests/setup/global-setup.js (shipped inside src/tests/auth/auth.setup.js):
it checks whether the persisted storage-state file at
playwright/.auth/user.json exists and is younger than one hour (by its
modification time), reuses it in that case, and otherwise drives the
interactive login sequence and persists a fresh storage state.
-/

namespace AuthSetup

/-- A persisted session snapshot: the modification time of the file at the
storage path, in milliseconds (stats.mtimeMs), and its serialized
storage-state content. The storage path holds either no file (`none`) or
one snapshot. -/
structure Snapshot where
  mtimeMs : ℚ
  content : String
deriving DecidableEq

/-- The environment variables that globalSetup reads through process.env. -/
structure Env where
  BASE_URL : Option String
  SUPERADMIN_USERNAME : Option String
  SUPERADMIN_PASSWORD : Option String

/-- JavaScript logical-or fallback `process.env.X || default`: an unset
variable, and also one set to the empty string (falsy in JavaScript),
falls through to the default. -/
def jsOrDefault : Option String → String → String
  | none, d => d
  | some s, d => if s = "" then d else s

/-- Resolution of BASE_URL in globalSetup:
`process.env.BASE_URL || "https://192.168.10.30:700"`. -/
def resolveBaseUrl (env : Env) : String :=
  jsOrDefault env.BASE_URL "https://192.168.10.30:700"

/-- Resolution of the username in globalSetup:
`process.env.SUPERADMIN_USERNAME || "main.superadmin"`. -/
def resolveUsername (env : Env) : String :=
  jsOrDefault env.SUPERADMIN_USERNAME "main.superadmin"

/-- Resolution of the password in globalSetup:
`process.env.SUPERADMIN_PASSWORD || "Ordiss@SA"`. -/
def resolvePassword (env : Env) : String :=
  jsOrDefault env.SUPERADMIN_PASSWORD "Ordiss@SA"

/-- A JavaScript error value as thrown by an automation step of the login
sequence; only its message is observable to globalSetup, which logs it and
rethrows the error object unchanged. -/
structure JsError where
  message : String
deriving DecidableEq

/-- Age of the snapshot file as computed in globalSetup:
`(Date.now() - stats.mtimeMs) / 1000 / 60`, in minutes. -/
def ageInMinutes (now : ℚ) (snap : Snapshot) : ℚ :=
  (now - snap.mtimeMs) / 1000 / 60

/-- JavaScript Math.round as applied to the logged age: round half toward
positive infinity. -/
def jsRound (q : ℚ) : ℤ :=
  ⌊q + 1 / 2⌋

/-- One console line emitted by globalSetup, one constructor per console
call site in the source. -/
inductive LogEvent where
  | usingExisting (roundedAgeInMinutes : ℤ)
  | performingAuth
  | authSaved
  | authFailed (message : String)
deriving DecidableEq

/-- The outcome of one globalSetup invocation: normal return after reuse,
normal return after a fresh acquisition, or a rethrown login failure. -/
inductive SetupResult where
  | reused
  | acquired (snap : Snapshot)
  | failed (e : JsError)
deriving DecidableEq

/-- Whether a globalSetup invocation returned normally (did not rethrow). -/
def SetupResult.isSuccess : SetupResult → Bool
  | .reused => true
  | .acquired _ => true
  | .failed _ => false

/-- Everything observable about one globalSetup invocation: its result, the
state of the storage path afterwards, how many times the login sequence was
driven, and the console output. -/
structure Outcome where
  result : SetupResult
  file : Option Snapshot
  acquireCalls : ℕ
  logs : List LogEvent
deriving DecidableEq

/-- The slow path of globalSetup given the outcome of the login sequence:
on success the storage state is saved to the auth file (so the file content
is the fresh payload and its modification time is the time of the write);
on failure the error is logged and rethrown and the file is not touched.
In both cases the login sequence was driven exactly once. -/
def acquireOutcome (now : ℚ) (file : Option Snapshot)
    (res : Except JsError String) : Outcome :=
  match res with
  | .ok payload =>
      { result := .acquired ⟨now, payload⟩
        file := some ⟨now, payload⟩
        acquireCalls := 1
        logs := [.performingAuth, .authSaved] }
  | .error e =>
      { result := .failed e
        file := file
        acquireCalls := 1
        logs := [.performingAuth, .authFailed e.message] }

/-- The slow path of globalSetup: resolve the configuration from the
environment with hardcoded fallbacks, drive the login sequence against the
resolved target with the resolved credentials, and handle its outcome. -/
def acquireAndPersist (now : ℚ) (file : Option Snapshot) (env : Env)
    (login : String → String → String → Except JsError String) : Outcome :=
  acquireOutcome now file
    (login (resolveBaseUrl env) (resolveUsername env) (resolvePassword env))

/-- Shallow embedding of globalSetup from tests/setup/global-setup.js.
If the auth file exists and its age is under 60 minutes the existing
snapshot is reused with no login and no write; otherwise the login
sequence runs and, on success, the fresh storage state is persisted. The
login sequence (navigate, click, fill, submit, wait) is passed in as the
function it is to this component: a routine from resolved base URL,
username and password to either a raw storage-state payload or a thrown
error. -/
def globalSetup (now : ℚ) (file : Option Snapshot) (env : Env)
    (login : String → String → String → Except JsError String) : Outcome :=
  match file with
  | some snap =>
      if ageInMinutes now snap < 60 then
        { result := .reused
          file := some snap
          acquireCalls := 0
          logs := [.usingExisting (jsRound (ageInMinutes now snap))] }
      else
        acquireAndPersist now (some snap) env login
  | none => acquireAndPersist now file env login

/-- The age in minutes is under 60 exactly when the age in milliseconds is
under one hour (3600000 ms), the TTL of the cache. -/
theorem ageInMinutes_lt_iff (now : ℚ) (snap : Snapshot) :
    ageInMinutes now snap < 60 ↔ now - snap.mtimeMs < 3600000 := by
  unfold ageInMinutes
  rw [div_div, div_lt_iff₀ (by norm_num : (0 : ℚ) < 1000 * 60)]
  norm_num

/-- C1: a snapshot file whose age is strictly below the one-hour TTL is
returned as-is: the login sequence is not driven (zero acquisition calls)
and the storage path is not written (the file afterwards is exactly the
prior snapshot). -/
theorem cacheHit_no_acquisition (now : ℚ) (snap : Snapshot) (env : Env)
    (login : String → String → String → Except JsError String)
    (hfresh : now - snap.mtimeMs < 3600000) :
    globalSetup now (some snap) env login =
      { result := .reused
        file := some snap
        acquireCalls := 0
        logs := [.usingExisting (jsRound (ageInMinutes now snap))] } := by
  have h : ageInMinutes now snap < 60 := (ageInMinutes_lt_iff now snap).mpr hfresh
  simp [globalSetup, h]

/-- Witness for C1: a snapshot 100000 ms old (under the TTL) is reused. -/
theorem cacheHit_no_acquisition_witness :
    (100000 : ℚ) - (0 : ℚ) < 3600000 ∧
    globalSetup 100000 (some ⟨0, "x"⟩) ⟨none, none, none⟩
        (fun _ _ _ => .ok "p") =
      { result := .reused
        file := some ⟨0, "x"⟩
        acquireCalls := 0
        logs := [.usingExisting (jsRound (ageInMinutes 100000 ⟨0, "x"⟩))] } :=
  ⟨by norm_num,
   cacheHit_no_acquisition 100000 ⟨0, "x"⟩ ⟨none, none, none⟩
     (fun _ _ _ => .ok "p") (by norm_num)⟩

/-- C10: with BASE_URL, SUPERADMIN_USERNAME and SUPERADMIN_PASSWORD all
unset, globalSetup does not fail or report missing configuration: it drives
the login sequence with the hardcoded defaults
https://192.168.10.30:700, main.superadmin and Ordiss@SA, invoking it
exactly once (whatever its outcome) when no snapshot exists. -/
theorem unsetEnv_uses_defaults (now : ℚ)
    (login : String → String → String → Except JsError String) :
    globalSetup now none ⟨none, none, none⟩ login =
      acquireOutcome now none
        (login "https://192.168.10.30:700" "main.superadmin" "Ordiss@SA") ∧
    (globalSetup now none ⟨none, none, none⟩ login).acquireCalls = 1 := by
  constructor
  · rfl
  · show (acquireOutcome now none
        (login "https://192.168.10.30:700" "main.superadmin" "Ordiss@SA")).acquireCalls = 1
    cases login "https://192.168.10.30:700" "main.superadmin" "Ordiss@SA" <;> rfl

/-- The storage path is absent or holds a snapshot at least one hour old:
the situations in which globalSetup drives the login sequence. -/
def staleOrAbsent (now : ℚ) (file : Option Snapshot) : Prop :=
  file = none ∨ ∃ snap, file = some snap ∧ 3600000 ≤ now - snap.mtimeMs

theorem globalSetup_staleOrAbsent (now : ℚ) (file : Option Snapshot)
    (env : Env) (login : String → String → String → Except JsError String)
    (hstale : staleOrAbsent now file) :
    globalSetup now file env login = acquireAndPersist now file env login := by
  rcases hstale with h | ⟨snap, rfl, hage⟩
  · subst h; rfl
  · have h : ¬ ageInMinutes now snap < 60 := by
      rw [ageInMinutes_lt_iff]; linarith
    simp [globalSetup, h]

/-- C4: when the snapshot is absent or at least one hour old, globalSetup
drives the login sequence exactly once and, when it succeeds, persists the
fresh storage state to the auth file, overwriting whatever was there, with
the modification time of the write, i.e. the time of the acquisition. -/
theorem staleOrAbsent_acquires_once (now : ℚ) (file : Option Snapshot)
    (env : Env) (login : String → String → String → Except JsError String)
    (payload : String)
    (hstale : staleOrAbsent now file)
    (hok : login (resolveBaseUrl env) (resolveUsername env)
      (resolvePassword env) = .ok payload) :
    globalSetup now file env login =
      { result := .acquired ⟨now, payload⟩
        file := some ⟨now, payload⟩
        acquireCalls := 1
        logs := [.performingAuth, .authSaved] } := by
  rw [globalSetup_staleOrAbsent now file env login hstale]
  unfold acquireAndPersist
  rw [hok]
  rfl

/-- Witness for C4: with TTL one hour (3600 s) and a snapshot 4000 s old
(now = 4000000 ms, modification time 0), a succeeding login is driven once
and the new snapshot carries modification time 4000000. -/
theorem staleOrAbsent_acquires_once_witness :
    staleOrAbsent 4000000 (some ⟨0, "old"⟩) ∧
    (fun (_ _ _ : String) => (.ok "fresh" : Except JsError String))
        (resolveBaseUrl ⟨none, none, none⟩)
        (resolveUsername ⟨none, none, none⟩)
        (resolvePassword ⟨none, none, none⟩) = .ok "fresh" ∧
    globalSetup 4000000 (some ⟨0, "old"⟩) ⟨none, none, none⟩
        (fun _ _ _ => .ok "fresh") =
      { result := .acquired ⟨4000000, "fresh"⟩
        file := some ⟨4000000, "fresh"⟩
        acquireCalls := 1
        logs := [.performingAuth, .authSaved] } :=
  ⟨Or.inr ⟨⟨0, "old"⟩, rfl, by norm_num⟩, rfl,
   staleOrAbsent_acquires_once 4000000 (some ⟨0, "old"⟩) ⟨none, none, none⟩
     (fun _ _ _ => .ok "fresh") "fresh"
     (Or.inr ⟨⟨0, "old"⟩, rfl, by norm_num⟩) rfl⟩

/-- C3: if the login sequence throws, the storage path is left unchanged
whatever its initial state was (absent stays absent, a prior snapshot stays
byte-identical), and when the snapshot was absent or stale the failure is
propagated as the result of globalSetup. -/
theorem failure_leaves_file_unchanged (now : ℚ) (file : Option Snapshot)
    (env : Env) (login : String → String → String → Except JsError String)
    (e : JsError)
    (herr : login (resolveBaseUrl env) (resolveUsername env)
      (resolvePassword env) = .error e) :
    (globalSetup now file env login).file = file ∧
    (staleOrAbsent now file →
      (globalSetup now file env login).result = .failed e) := by
  have hacq : acquireAndPersist now file env login =
      { result := .failed e
        file := file
        acquireCalls := 1
        logs := [.performingAuth, .authFailed e.message] } := by
    unfold acquireAndPersist
    rw [herr]
    rfl
  constructor
  · match file with
    | none => rw [show globalSetup now none env login =
        acquireAndPersist now none env login from rfl, hacq]
    | some snap =>
      by_cases h : ageInMinutes now snap < 60
      · simp [globalSetup, h]
      · simp [globalSetup, h, hacq]
  · intro hstale
    rw [globalSetup_staleOrAbsent now file env login hstale, hacq]

/-- Witness for C3: a failing login over a stale prior snapshot leaves the
file byte-identical and propagates the failure. -/
theorem failure_leaves_file_unchanged_witness :
    (fun (_ _ _ : String) => (.error ⟨"boom"⟩ : Except JsError String))
        (resolveBaseUrl ⟨none, none, none⟩)
        (resolveUsername ⟨none, none, none⟩)
        (resolvePassword ⟨none, none, none⟩) = .error ⟨"boom"⟩ ∧
    (globalSetup 4000000 (some ⟨0, "old"⟩) ⟨none, none, none⟩
        (fun _ _ _ => .error ⟨"boom"⟩)).file = some ⟨0, "old"⟩ ∧
    (globalSetup 4000000 (some ⟨0, "old"⟩) ⟨none, none, none⟩
        (fun _ _ _ => .error ⟨"boom"⟩)).result = .failed ⟨"boom"⟩ :=
  ⟨rfl,
   (failure_leaves_file_unchanged 4000000 (some ⟨0, "old"⟩) ⟨none, none, none⟩
      (fun _ _ _ => .error ⟨"boom"⟩) ⟨"boom"⟩ rfl).1,
   (failure_leaves_file_unchanged 4000000 (some ⟨0, "old"⟩) ⟨none, none, none⟩
      (fun _ _ _ => .error ⟨"boom"⟩) ⟨"boom"⟩ rfl).2
     (Or.inr ⟨⟨0, "old"⟩, rfl, by norm_num⟩)⟩

/-- C5: whenever globalSetup returns normally, whether by reuse or by fresh
acquisition, the snapshot then at the storage path is strictly younger than
the one-hour TTL at the moment of return. -/
theorem success_implies_fresh (now : ℚ) (file : Option Snapshot) (env : Env)
    (login : String → String → String → Except JsError String)
    (hsucc : (globalSetup now file env login).result.isSuccess = true) :
    ∃ snap, (globalSetup now file env login).file = some snap ∧
      now - snap.mtimeMs < 3600000 := by
  have hacq : ∀ f : Option Snapshot,
      (acquireOutcome now f (login (resolveBaseUrl env) (resolveUsername env)
        (resolvePassword env))).result.isSuccess = true →
      ∃ snap, (acquireOutcome now f (login (resolveBaseUrl env)
        (resolveUsername env) (resolvePassword env))).file = some snap ∧
        now - snap.mtimeMs < 3600000 := by
    intro f hs
    match hl : login (resolveBaseUrl env) (resolveUsername env)
        (resolvePassword env) with
    | .ok payload =>
      refine ⟨⟨now, payload⟩, ?_, by norm_num⟩
      simp [acquireOutcome, hl]
    | .error e =>
      rw [hl] at hs
      simp [acquireOutcome, SetupResult.isSuccess] at hs
  match file with
  | none => exact hacq none hsucc
  | some snap =>
    by_cases h : ageInMinutes now snap < 60
    · refine ⟨snap, ?_, (ageInMinutes_lt_iff now snap).mp h⟩
      simp [globalSetup, h]
    · have hg : globalSetup now (some snap) env login =
          acquireAndPersist now (some snap) env login := by
        simp [globalSetup, h]
      rw [hg] at hsucc ⊢
      exact hacq (some snap) hsucc

/-- Witness for C5: a fresh acquisition over an absent file returns with a
snapshot of age zero, under the TTL. -/
theorem success_implies_fresh_witness :
    ((globalSetup 5 none ⟨none, none, none⟩
        (fun _ _ _ => .ok "p")).result.isSuccess = true) ∧
    ∃ snap, (globalSetup 5 none ⟨none, none, none⟩
        (fun _ _ _ => .ok "p")).file = some snap ∧
      (5 : ℚ) - snap.mtimeMs < 3600000 :=
  ⟨rfl, success_implies_fresh 5 none ⟨none, none, none⟩
    (fun _ _ _ => .ok "p") rfl⟩

/-- C9: the reuse-versus-reacquire decision of globalSetup reads only the
existence and modification time of the auth file, never its content: two
files with the same modification time and arbitrary different contents
(empty or corrupt included) yield the same number of acquisition calls and
the same reuse decision, so an invalid file younger than the TTL is reused
without any validation of its content. -/
theorem decision_ignores_content (now : ℚ) (m : ℚ) (c₁ c₂ : String)
    (env : Env) (login : String → String → String → Except JsError String) :
    (globalSetup now (some ⟨m, c₁⟩) env login).acquireCalls =
      (globalSetup now (some ⟨m, c₂⟩) env login).acquireCalls ∧
    ((globalSetup now (some ⟨m, c₁⟩) env login).result = .reused ↔
      (globalSetup now (some ⟨m, c₂⟩) env login).result = .reused) := by
  by_cases h : ageInMinutes now ⟨m, c₁⟩ < 60
  · have h₂ : ageInMinutes now ⟨m, c₂⟩ < 60 := h
    simp [globalSetup, h, h₂]
  · have h₂ : ¬ ageInMinutes now ⟨m, c₂⟩ < 60 := h
    have hr : ∀ c : String, acquireAndPersist now (some ⟨m, c⟩) env login =
        acquireOutcome now (some ⟨m, c⟩) (login (resolveBaseUrl env)
          (resolveUsername env) (resolvePassword env)) := fun _ => rfl
    simp only [globalSetup, if_neg h, if_neg h₂, hr]
    match login (resolveBaseUrl env) (resolveUsername env)
        (resolvePassword env) with
    | .ok payload => exact ⟨rfl, Iff.rfl⟩
    | .error e => exact ⟨rfl, Iff.rfl⟩

/-! Concurrency model. globalSetup has no lock, marker file or in-memory
in-flight flag: each caller independently performs the freshness check and,
on a miss, independently drives the login sequence and persists. A caller
is therefore a two-step straight-line program (check, then acquire when the
check missed), and a concurrent run of N callers is an arbitrary
interleaving of these steps over the shared auth file. -/

/-- The freshness check of globalSetup as a predicate on the shared file:
fs.existsSync and then ageInMinutes under 60. -/
def checkFresh (now : ℚ) : Option Snapshot → Bool
  | none => false
  | some snap => decide (ageInMinutes now snap < 60)

/-- Where one concurrent caller of globalSetup stands: before its
freshness check, past a missed check and about to drive the login and
persist, or finished. -/
inductive Phase where
  | ready
  | mustAcquire
  | done
deriving DecidableEq

/-- Shared state of a concurrent run: the auth file, the total number of
login-sequence invocations so far, and each caller phase. -/
structure GState where
  file : Option Snapshot
  calls : ℕ
  phases : ℕ → Phase

/-- One atomic step of caller i, exactly the two halves of globalSetup:
a ready caller runs the freshness check (reuse on a hit, otherwise it now
must acquire); a caller past a missed check drives the login sequence
(counted) and persists the fresh snapshot. This models the successful
login path with payload p. -/
def stepCaller (now : ℚ) (p : String) (g : GState) (i : ℕ) : GState :=
  match g.phases i with
  | .ready =>
      if checkFresh now g.file then
        { g with phases := Function.update g.phases i .done }
      else
        { g with phases := Function.update g.phases i .mustAcquire }
  | .mustAcquire =>
      { file := some ⟨now, p⟩
        calls := g.calls + 1
        phases := Function.update g.phases i .done }
  | .done => g

/-- Run an interleaving: the schedule lists, in order, which caller takes
its next step. -/
def runSched (now : ℚ) (p : String) (g : GState) (sched : List ℕ) : GState :=
  sched.foldl (stepCaller now p) g

/-- Initial shared state: no auth file, no login yet, every caller before
its check. -/
def initState : GState :=
  { file := none, calls := 0, phases := fun _ => .ready }

theorem runSched_checks (now : ℚ) (p : String) :
    ∀ (is : List ℕ) (g : GState), g.file = none → is.Nodup →
      (∀ i ∈ is, g.phases i = .ready) →
      (runSched now p g is).file = none ∧
      (runSched now p g is).calls = g.calls ∧
      (∀ j, (runSched now p g is).phases j =
        if j ∈ is then .mustAcquire else g.phases j) := by
  intro is
  induction is with
  | nil => intro g hf _ _; exact ⟨hf, rfl, fun j => rfl⟩
  | cons i is ih =>
    intro g hf hnd hready
    have hstep : stepCaller now p g i =
        { g with phases := Function.update g.phases i Phase.mustAcquire } := by
      unfold stepCaller
      rw [hready i (List.mem_cons_self i is), hf]
      rfl
    have hrun : runSched now p g (i :: is) =
        runSched now p
          { g with phases := Function.update g.phases i Phase.mustAcquire }
          is := by
      show runSched now p (stepCaller now p g i) is = _
      rw [hstep]
    have hnotmem : i ∉ is := (List.nodup_cons.mp hnd).1
    have hready' : ∀ i' ∈ is,
        (Function.update g.phases i Phase.mustAcquire) i' = .ready := by
      intro i' hi'
      have hne : i' ≠ i := fun h => hnotmem (h ▸ hi')
      rw [Function.update_noteq hne]
      exact hready i' (List.mem_cons_of_mem i hi')
    obtain ⟨hf', hc', hp'⟩ := ih
      { g with phases := Function.update g.phases i Phase.mustAcquire }
      hf (List.nodup_cons.mp hnd).2 hready'
    refine ⟨by rw [hrun]; exact hf', by rw [hrun]; exact hc', ?_⟩
    intro j
    rw [hrun, hp' j]
    by_cases hj : j ∈ is
    · simp [hj]
    · by_cases hji : j = i
      · subst hji
        simp [Function.update_same]
      · simp [hj, hji, Function.update_noteq hji]

theorem runSched_acquires (now : ℚ) (p : String) :
    ∀ (is : List ℕ) (g : GState), is.Nodup →
      (∀ i ∈ is, g.phases i = .mustAcquire) →
      (runSched now p g is).calls = g.calls + is.length := by
  intro is
  induction is with
  | nil => intro g _ _; rfl
  | cons i is ih =>
    intro g hnd hmust
    have hstep : stepCaller now p g i =
        { file := some ⟨now, p⟩
          calls := g.calls + 1
          phases := Function.update g.phases i .done } := by
      unfold stepCaller
      rw [hmust i (List.mem_cons_self i is)]
    have hnotmem : i ∉ is := (List.nodup_cons.mp hnd).1
    have hmust' : ∀ i' ∈ is,
        (Function.update g.phases i Phase.done) i' = .mustAcquire := by
      intro i' hi'
      have hne : i' ≠ i := fun h => hnotmem (h ▸ hi')
      rw [Function.update_noteq hne]
      exact hmust i' (List.mem_cons_of_mem i hi')
    have hrun : runSched now p g (i :: is) =
        runSched now p
          ⟨some ⟨now, p⟩, g.calls + 1, Function.update g.phases i Phase.done⟩
          is := by
      show runSched now p (stepCaller now p g i) is = _
      rw [hstep]
    rw [hrun, ih _ (List.nodup_cons.mp hnd).2 hmust']
    simp [List.length_cons]
    ring

/-- C2 counterexample: two callers run globalSetup concurrently over an
absent auth file under the interleaving check, check, acquire, acquire;
the login sequence is driven twice, not once, because nothing in
globalSetup makes the first acquirer exclusive. -/
theorem concurrent_callers_acquire_twice :
    (runSched 0 "p" initState [0, 1, 0, 1]).calls = 2 ∧
    (runSched 0 "p" initState [0, 1, 0, 1]).calls ≠ 1 := by
  constructor <;> decide

/-- C2 amended: globalSetup has no single-flight mechanism. For every N,
when N concurrent callers all run their freshness check before any of them
persists (schedule: the N checks, then the N acquisitions), each caller
that observed the absent snapshot drives the login sequence itself, for N
total acquisitions rather than one. -/
theorem no_single_flight (now : ℚ) (p : String) (N : ℕ) :
    (runSched now p initState (List.range N ++ List.range N)).calls = N := by
  have hsplit : runSched now p initState (List.range N ++ List.range N) =
      runSched now p (runSched now p initState (List.range N))
        (List.range N) := List.foldl_append _ _ _ _
  obtain ⟨hf, hc, hp⟩ := runSched_checks now p (List.range N) initState rfl
    (List.nodup_range N) (fun i _ => rfl)
  have hmust : ∀ i ∈ List.range N,
      (runSched now p initState (List.range N)).phases i = .mustAcquire := by
    intro i hi
    rw [hp i]
    simp [hi]
  rw [hsplit, runSched_acquires now p (List.range N) _ (List.nodup_range N)
    hmust, hc]
  simp [initState]

/-- Modelled from the spec: the repository source contains no invalidate
routine (the operation exists only in the spec, for operator tooling).
Per the spec, invalidate(storagePath) deletes the persisted snapshot at
the storage path. -/
def invalidate (_file : Option Snapshot) : Option Snapshot := none

/-- C6: invalidate deletes the snapshot, so the next globalSetup call
re-acquires (exactly one login-sequence run); a second call in immediate
succession (under an hour later) hits the freshly persisted snapshot and
acquires zero times, so the pair of calls after invalidate performs exactly
one acquisition, not two. -/
theorem invalidate_then_single_acquisition (now now₂ : ℚ)
    (file : Option Snapshot) (env env₂ : Env)
    (login login₂ : String → String → String → Except JsError String)
    (payload : String)
    (hok : login (resolveBaseUrl env) (resolveUsername env)
      (resolvePassword env) = .ok payload)
    (hfast : now₂ - now < 3600000) :
    (globalSetup now (invalidate file) env login).acquireCalls = 1 ∧
    (globalSetup now₂ (globalSetup now (invalidate file) env login).file
      env₂ login₂).acquireCalls = 0 := by
  have h₁ : globalSetup now (invalidate file) env login =
      acquireOutcome now none (.ok payload) := by
    show acquireAndPersist now none env login = _
    unfold acquireAndPersist
    rw [hok]
  have hfile : (globalSetup now (invalidate file) env login).file =
      some ⟨now, payload⟩ := by rw [h₁]; rfl
  refine ⟨by rw [h₁]; rfl, ?_⟩
  rw [hfile]
  have hfresh : ageInMinutes now₂ ⟨now, payload⟩ < 60 :=
    (ageInMinutes_lt_iff now₂ ⟨now, payload⟩).mpr hfast
  simp [globalSetup, hfresh]

/-- Witness for C6: invalidating a stale snapshot, then calling globalSetup
at 1000 ms and again at 2000 ms, acquires once then zero times. -/
theorem invalidate_then_single_acquisition_witness :
    ((fun (_ _ _ : String) => (.ok "p" : Except JsError String))
        (resolveBaseUrl ⟨none, none, none⟩)
        (resolveUsername ⟨none, none, none⟩)
        (resolvePassword ⟨none, none, none⟩) = .ok "p") ∧
    (2000 : ℚ) - 1000 < 3600000 ∧
    (globalSetup 1000 (invalidate (some ⟨0, "junk"⟩)) ⟨none, none, none⟩
        (fun _ _ _ => .ok "p")).acquireCalls = 1 ∧
    (globalSetup 2000 (globalSetup 1000 (invalidate (some ⟨0, "junk"⟩))
        ⟨none, none, none⟩ (fun _ _ _ => .ok "p")).file ⟨none, none, none⟩
        (fun _ _ _ => .error ⟨"x"⟩)).acquireCalls = 0 :=
  ⟨rfl, by norm_num,
   (invalidate_then_single_acquisition 1000 2000 (some ⟨0, "junk"⟩)
      ⟨none, none, none⟩ ⟨none, none, none⟩ (fun _ _ _ => .ok "p")
      (fun _ _ _ => .error ⟨"x"⟩) "p" rfl (by norm_num)).1,
   (invalidate_then_single_acquisition 1000 2000 (some ⟨0, "junk"⟩)
      ⟨none, none, none⟩ ⟨none, none, none⟩ (fun _ _ _ => .ok "p")
      (fun _ _ _ => .error ⟨"x"⟩) "p" rfl (by norm_num)).2⟩

/-- A message names a URL when the URL occurs verbatim inside it. -/
def mentions (msg url : String) : Prop :=
  List.IsInfix url.data msg.data

/-- C7 counterexample: with the default target URL and an absent snapshot,
a login failing at the password-fill step with the message the automation
library produces for a fill timeout is rethrown as-is, so the surfaced
error does not name the target URL https://192.168.10.30:700; globalSetup
attaches no context of its own. -/
theorem surfaced_error_lacks_target_url :
    (globalSetup 0 none ⟨none, none, none⟩ (fun _ _ _ =>
        .error ⟨"locator.fill: Timeout 30000ms exceeded."⟩)).result =
      .failed ⟨"locator.fill: Timeout 30000ms exceeded."⟩ ∧
    ¬ mentions "locator.fill: Timeout 30000ms exceeded."
        "https://192.168.10.30:700" :=
  ⟨rfl, by unfold mentions; decide⟩

/-- C7 amended: on acquisition failure globalSetup does not swallow the
error: it logs an authentication-failed line carrying the error message and
rethrows the very same error as its result, aborting setup; the surfaced
context is exactly what the failing step error itself carries, which
identifies the failing step but names the target URL only when that error
happens to include it. -/
theorem failure_is_surfaced (now : ℚ) (file : Option Snapshot) (env : Env)
    (login : String → String → String → Except JsError String) (e : JsError)
    (hstale : staleOrAbsent now file)
    (herr : login (resolveBaseUrl env) (resolveUsername env)
      (resolvePassword env) = .error e) :
    (globalSetup now file env login).result = .failed e ∧
    LogEvent.authFailed e.message ∈ (globalSetup now file env login).logs := by
  rw [globalSetup_staleOrAbsent now file env login hstale]
  unfold acquireAndPersist
  rw [herr]
  exact ⟨rfl, by simp [acquireOutcome]⟩

/-- Witness for C7: a failing login over an absent snapshot is rethrown and
its message appears in the console output. -/
theorem failure_is_surfaced_witness :
    staleOrAbsent 0 (none : Option Snapshot) ∧
    ((fun (_ _ _ : String) => (.error ⟨"boom2"⟩ : Except JsError String))
        (resolveBaseUrl ⟨none, none, none⟩)
        (resolveUsername ⟨none, none, none⟩)
        (resolvePassword ⟨none, none, none⟩) = .error ⟨"boom2"⟩) ∧
    (globalSetup 0 none ⟨none, none, none⟩
        (fun _ _ _ => .error ⟨"boom2"⟩)).result = .failed ⟨"boom2"⟩ ∧
    LogEvent.authFailed "boom2" ∈
      (globalSetup 0 none ⟨none, none, none⟩
        (fun _ _ _ => .error ⟨"boom2"⟩)).logs :=
  ⟨Or.inl rfl, rfl,
   (failure_is_surfaced 0 none ⟨none, none, none⟩
      (fun _ _ _ => .error ⟨"boom2"⟩) ⟨"boom2"⟩ (Or.inl rfl) rfl).1,
   (failure_is_surfaced 0 none ⟨none, none, none⟩
      (fun _ _ _ => .error ⟨"boom2"⟩) ⟨"boom2"⟩ (Or.inl rfl) rfl).2⟩

end AuthSetup
